import Mathlib

/-
Shallow embedding of `pyannote/audio/features/utils.py` (feature caching and
audio reading for the pyannote-audio pipeline).

Modelling conventions:
- Machine floats are modelled as rationals (ℚ).  IEEE-754 binary32 payload
  words are decoded exactly into `Option ℚ` (`none` marks the non-finite
  values, which have no rational counterpart).
- File-system paths are modelled as their lists of components separated by
  the path separator; string formatting such as (root_dir)/(uri).npy becomes
  list append plus extension append on the last component.
- The file system is explicit state: an association list from paths to file
  contents plus the set of created directories.  Reads thread the state
  unchanged; writes return an updated state.
- `get_unique_identifier` (pyannote.database) is an external collaborator:
  items are modelled directly by the derived key, given as its components.
- Python exceptions become an explicit error type returned via `Except`.
-/

namespace PyannoteAudio

/-- Errors surfaced by the Python code: `ValueError`, `AttributeError`
(raised when a missing attribute such as the misspelled `dimensions_` is
accessed), the module's own `PyannoteFeatureExtractionError`, the builtin
`FileNotFoundError` from `open` on a missing path, `TypeError` from numpy
arithmetic against `None`, `IndexError` from numpy indexing, and
`struct.error` from `unpack` on data of the wrong length. -/
inductive PyError
  | valueError (msg : String)
  | attributeError (attr : String)
  | featureExtractionError (msg : String)
  | fileNotFoundError (path : String)
  | typeError (msg : String)
  | indexError (msg : String)
  | structError
deriving DecidableEq

/-- A file-system path, as its list of separator-delimited components. -/
abbrev Path := List String

/-- A key (unique identifier of an item), as its separator-delimited
components; the derivation from the item record is external. -/
abbrev Uri := List String

/-- Join components back into the display form used inside error messages. -/
def uriStr : List String → String
  | [] => ""
  | [x] => x
  | x :: xs => x ++ "/" ++ uriStr xs

/-- Contents a file can hold in this development: a serialized numpy matrix
(`.npy`), the YAML schema descriptor `metadata.yml` (fields `start`,
`duration`, `step`, `dimension`), or raw bytes of a legacy HTK file. -/
inductive FileContent
  | npy (data : List (List ℚ))
  | yamlSchema (start duration step : ℚ) (dimension : ℕ)
  | htk (bytes : List ℕ)
deriving DecidableEq

/-- The file-system state: files (later bindings shadow earlier ones, which
models in-place overwrite) and the directories created so far. -/
structure FS where
  files : List (Path × FileContent)
  dirs : List Path
deriving DecidableEq

def fsLookup (fs : FS) (p : Path) : Option FileContent :=
  fs.files.lookup p

def fsWrite (fs : FS) (p : Path) (c : FileContent) : FS :=
  { fs with files := (p, c) :: fs.files }

/-- `pyannote.audio.util.mkdir_p`: create a directory (and its parents; only
the requested directory is recorded, which is all the claims consult). -/
def mkdir_p (fs : FS) (d : Path) : FS :=
  { fs with dirs := d :: fs.dirs }

/-- `pyannote.core.SlidingWindow`: a frame grid, window `i` spanning
`[start + i*step, start + i*step + duration)`. -/
structure SlidingWindow where
  start : ℚ
  duration : ℚ
  step : ℚ
deriving DecidableEq

/-- `pyannote.core.SlidingWindowFeature`: a matrix of per-frame feature
vectors aligned on a sliding-window grid. -/
structure SlidingWindowFeature where
  data : List (List ℚ)
  sliding_window : SlidingWindow
deriving DecidableEq

/-- Append an extension to the last component of a key, mirroring the string
formatting (uri).(ext) of the Python code. -/
def appendExt : List String → String → List String
  | [], ext => [ext]
  | [x], ext => [x ++ ext]
  | x :: xs, ext => x :: appendExt xs ext

/-- State of a `Precomputed` handle after `__init__`: constructor arguments
kept on `self` plus the resolved schema `sliding_window_`/`dimension_`. -/
structure Precomputed where
  root_dir : Path
  use_memmap : Bool
  mu : Option ℚ
  sigma : Option ℚ
  sliding_window_ : SlidingWindow
  dimension_ : ℕ
deriving DecidableEq

/-- `Precomputed.get_path`: `(root_dir)/(uri).npy`. -/
def Precomputed.get_path (p : Precomputed) (uri : Uri) : Path :=
  p.root_dir ++ appendExt uri ".npy"

/-- The schema descriptor path `(root_dir)/metadata.yml`. -/
def metadataPath (root_dir : Path) : Path :=
  root_dir ++ ["metadata.yml"]

/-- Line 219 of the source: `dimension is not None and self.dimension_ != dimension`. -/
def dimMismatch : Option ℕ → ℕ → Bool
  | none, _ => false
  | some d, stored => decide (stored ≠ d)

/-- Lines 223-226 of the source: a supplied sliding window disagrees with the
stored one on `start`, `duration` or `step`. -/
def swMismatch : Option SlidingWindow → SlidingWindow → Bool
  | none, _ => false
  | some sw, stored =>
      decide (sw.start ≠ stored.start ∨ sw.duration ≠ stored.duration ∨
              sw.step ≠ stored.step)

/-- `Precomputed.__init__`.  If `metadata.yml` exists, parse it and validate
the caller-supplied `dimension` and `sliding_window` against it; note that on
a dimension mismatch the source evaluates `self.dimensions_` (a misspelling
of `dimension_`) while building the `ValueError` message, so the access
raises `AttributeError` before any `ValueError` can be raised.  If no schema
file exists, both parameters are mandatory; the directory is created, the
schema is written, and the supplied values become the resolved schema. -/
def Precomputed.init (fs : FS) (root_dir : Path) (use_memmap : Bool)
    (sliding_window : Option SlidingWindow) (dimension : Option ℕ)
    (mu sigma : Option ℚ) : Except PyError (Precomputed × FS) :=
  let path := metadataPath root_dir
  match fsLookup fs path with
  | some (FileContent.yamlSchema start duration step dim) =>
      let stored : SlidingWindow := ⟨start, duration, step⟩
      if dimMismatch dimension dim then
        Except.error (PyError.attributeError "dimensions_")
      else if swMismatch sliding_window stored then
        Except.error (PyError.valueError "inconsistent \"sliding_window\"")
      else
        Except.ok (⟨root_dir, use_memmap, mu, sigma, stored, dim⟩, fs)
  | some _ =>
      -- unreachable for states produced by this module: `metadata.yml` only
      -- ever holds a schema document; any other content fails YAML parsing
      Except.error (PyError.valueError "could not parse metadata file")
  | none =>
      match sliding_window with
      | none => Except.error (PyError.valueError "missing \"sliding_window\" parameter.")
      | some sw =>
          match dimension with
          | none => Except.error (PyError.valueError "missing \"dimension\" parameter.")
          | some dim =>
              let fs1 := mkdir_p fs path.dropLast
              let fs2 := fsWrite fs1 path
                (FileContent.yamlSchema sw.start sw.duration sw.step dim)
              Except.ok (⟨root_dir, use_memmap, mu, sigma, sw, dim⟩, fs2)

/-- `Precomputed.__call__`: read the entry for a key.  A missing backing file
raises the domain error naming the key.  The matrix is loaded (memory-mapped
or not, which does not change its value); if both `mu` and `sigma` are unset
the raw matrix is returned; if both are set `(data - mu) / sigma` is
returned; if exactly one is set, numpy arithmetic against `None` raises
`TypeError`.  The file-system state is threaded through unchanged: the read
performs no write. -/
def Precomputed.call (p : Precomputed) (fs : FS) (uri : Uri) :
    Except PyError SlidingWindowFeature × FS :=
  let path := p.get_path uri
  match fsLookup fs path with
  | none =>
      (Except.error (PyError.featureExtractionError
        ("No precomputed features for \"" ++ uriStr uri ++ "\".")), fs)
  | some (FileContent.npy data) =>
      match p.mu, p.sigma with
      | none, none => (Except.ok ⟨data, p.sliding_window_⟩, fs)
      | some mu, some sigma =>
          (Except.ok ⟨data.map (fun row => row.map (fun x => (x - mu) / sigma)),
                      p.sliding_window_⟩, fs)
      | _, _ =>
          (Except.error (PyError.typeError
            "unsupported operand type: NoneType"), fs)
  | some _ =>
      -- unreachable for states produced by this module: entries under
      -- `(uri).npy` are written by `dump` below and hold a matrix
      (Except.error (PyError.valueError "failed to interpret file"), fs)

/-- `Precomputed.dump`: create the parent directory and serialize the
record's matrix to `get_path(key)`, overwriting any existing file. -/
def Precomputed.dump (p : Precomputed) (fs : FS) (uri : Uri)
    (features : SlidingWindowFeature) : FS :=
  let path := p.get_path uri
  let fs1 := mkdir_p fs path.dropLast
  fsWrite fs1 path (FileContent.npy features.data)

/-- A numpy array of samples: the decoders hand back either a 1-D vector
(single channel) or a 2-D matrix with one row per channel. -/
inductive NDArray
  | one (xs : List ℚ)
  | two (xss : List (List ℚ))
deriving DecidableEq

/-- Number of array dimensions (`y.ndim`). -/
def NDArray.ndim : NDArray → ℕ
  | .one _ => 1
  | .two _ => 2

def listMean (xs : List ℚ) : ℚ :=
  xs.sum / xs.length

/-- `librosa.to_mono`: average a multi-channel matrix over the channel axis
(axis 0), yielding one mean sample per column; a 1-D input is unchanged. -/
def to_mono : NDArray → NDArray
  | .one xs => .one xs
  | .two xss => .one (xss.transpose.map listMean)

/-- Numpy transpose `y.T`: a 1-D array transposes to itself. -/
def transposeND : NDArray → NDArray
  | .one xs => .one xs
  | .two xss => .two xss.transpose

/-- Numpy row indexing `rows[i, :]` with Python semantics: a negative index
counts from the end; out of range raises `IndexError`.  The selected row
comes back as a 1-D array. -/
def pyRow (rows : List (List ℚ)) (i : ℤ) : Except PyError (List ℚ) :=
  let j : ℤ := if i < 0 then i + rows.length else i
  if 0 ≤ j then
    match rows.get? j.toNat with
    | some r => Except.ok r
    | none => Except.error (PyError.indexError "index out of bounds")
  else Except.error (PyError.indexError "index out of bounds")

/-- `read_audio`, modelled from the point where the external decoder
(librosa or SPHFile) has produced the sample array `y`; decoding and
resampling are external collaborators.  Mirrors lines 134-147 of the
source: reshape a 1-D decode to one row, select the (1-indexed) channel if
the item carries one (`y[channel - 1, :]`, which yields a 1-D array), mix
to mono when requested, and return `y.T`. -/
def read_audio (y : NDArray) (channel : Option ℤ) (mono : Bool) :
    Except PyError NDArray :=
  let y1 : NDArray :=
    match y with
    | .one xs => .two [xs]
    | t => t
  let sel : Except PyError NDArray :=
    match channel, y1 with
    | some c, .two rows => (pyRow rows (c - 1)).map NDArray.one
    | some _, .one _ => Except.error (PyError.indexError "too many indices")
    | none, t => Except.ok t
  match sel with
  | Except.error e => Except.error e
  | Except.ok y2 =>
      let y3 := if mono then to_mono y2 else y2
      Except.ok (transposeND y3)

/-- Big-endian value of a byte string. -/
def beNat (bs : List ℕ) : ℕ :=
  bs.foldl (fun a b => a * 256 + b) 0

/-- Two's-complement reading of a 32-bit big-endian value (format `>i`). -/
def toSigned32 (n : ℕ) : ℤ :=
  if n < 2 ^ 31 then (n : ℤ) else (n : ℤ) - 2 ^ 32

/-- Two's-complement reading of a 16-bit big-endian value (format `>h`). -/
def toSigned16 (n : ℕ) : ℤ :=
  if n < 2 ^ 15 then (n : ℤ) else (n : ℤ) - 2 ^ 16

/-- Integer power of two as a rational, for IEEE-754 exponents. -/
def pow2 (e : ℤ) : ℚ :=
  if 0 ≤ e then (2 : ℚ) ^ e.toNat else 1 / (2 : ℚ) ^ (-e).toNat

/-- Exact value of an IEEE-754 binary32 number given as its 32-bit word
(format `>f`).  Exponent 255 encodes the non-finite values (infinities and
NaNs), which have no rational counterpart and are mapped to `none`. -/
def decodeF32 (b : ℕ) : Option ℚ :=
  let sign : ℕ := b / 2 ^ 31
  let e : ℕ := (b / 2 ^ 23) % 2 ^ 8
  let frac : ℕ := b % 2 ^ 23
  if e = 255 then none
  else
    let mag : ℚ :=
      if e = 0 then (frac : ℚ) / 2 ^ 23 * pow2 (-126)
      else (1 + (frac : ℚ) / 2 ^ 23) * pow2 ((e : ℤ) - 127)
    some (if sign = 1 then -mag else mag)

/-- Split a byte string into consecutive 4-byte groups (a trailing group of
fewer than 4 bytes never arises at the call site, which checks the length). -/
def chunks4 : List ℕ → List (List ℕ)
  | b0 :: b1 :: b2 :: b3 :: rest => [b0, b1, b2, b3] :: chunks4 rest
  | _ => []

/-- `unpack` with format `>fff...f`: consecutive big-endian binary32 values. -/
def unpackFloats (data : List ℕ) : List (Option ℚ) :=
  (chunks4 data).map (fun c => decodeF32 (beNat c))

/-- The decoded payload of an HTK file, with the numpy-level shape: `rows`
holds the frame vectors and `num_features` the allocated column count (also
meaningful when `rows` is empty). -/
structure HTKMatrix where
  rows : List (List (Option ℚ))
  num_features : ℕ
deriving DecidableEq

/-- The record-reading loop of `load_htk`: read `n` records of
`sample_size` bytes each, unpacking every record as `sample_size / 4`
big-endian floats; a record of the wrong length raises `struct.error`. -/
def readRecs (sample_size : ℕ) : ℕ → List ℕ → Except PyError (List (List (Option ℚ)))
  | 0, _ => Except.ok []
  | n + 1, fp =>
      let data := fp.take sample_size
      if data.length = 4 * (sample_size / 4) then
        match readRecs sample_size n (fp.drop sample_size) with
        | Except.ok rest => Except.ok (unpackFloats data :: rest)
        | Except.error e => Except.error e
      else Except.error PyError.structError

/-- `PrecomputedHTK.load_htk`: read the 12-byte big-endian header
`(int32 num_samples, int32 sample_period, int16 sample_size, int16 _)`
(format `>iihh`; a short header raises `struct.error`), derive
`num_features = int(sample_size / 4)` (truncating division), allocate the
`num_samples` by `num_features` matrix (numpy rejects negative dimensions),
and fill it record by record.  For a negative `sample_size` surviving the
dimension guard (values -3..-1) the byte-level behaviour of a `read` with a
negative count is not reproduced; every property below constrains
`sample_size` to be non-negative. -/
def load_htk (bytes : List ℕ) : Except PyError (HTKMatrix × ℤ) :=
  let hdr := bytes.take 12
  if hdr.length < 12 then Except.error PyError.structError
  else
    let num_samples : ℤ := toSigned32 (beNat (hdr.take 4))
    let sample_period : ℤ := toSigned32 (beNat ((hdr.drop 4).take 4))
    let sample_size : ℤ := toSigned16 (beNat ((hdr.drop 8).take 2))
    let num_features : ℤ := Int.tdiv sample_size 4
    if num_samples < 0 ∨ num_features < 0 then
      Except.error (PyError.valueError "negative dimensions are not allowed")
    else
      match readRecs sample_size.toNat num_samples.toNat (bytes.drop 12) with
      | Except.ok rows => Except.ok (⟨rows, num_features.toNat⟩, sample_period)
      | Except.error e => Except.error e

/-- Suffix test on strings, via their character lists. -/
def strEndsWith (s suffix : String) : Bool :=
  decide (s.data.reverse.take suffix.data.length = suffix.data.reverse)

/-- Prefix test on strings, via their character lists. -/
def strStartsWith (s p : String) : Bool :=
  decide (s.data.take p.data.length = p.data)

/-- Does `path` match the glob pattern `(root_dir)/*/*.htk`?  The path must
extend `root_dir` by exactly two components; each `*` matches any directory
entry that does not start with a dot (glob skips hidden entries); the file
component must carry the `.htk` extension. -/
def htkGlobMatch (root_dir : Path) (path : Path) : Bool :=
  decide (path.take root_dir.length = root_dir) &&
    match path.drop root_dir.length with
    | [a, b] =>
        !(strStartsWith a ".") && !(strStartsWith b ".") && strEndsWith b ".htk"
    | _ => false

/-- `glob('(root_dir)/*/*.htk')`: the existing files matching the pattern
(enumeration order follows the file list of the state). -/
def globHtk (fs : FS) (root_dir : Path) : List Path :=
  (fs.files.map Prod.fst).filter (htkGlobMatch root_dir)

/-- State of a `PrecomputedHTK` handle after `__init__`. -/
structure PrecomputedHTK where
  root_dir : Path
  duration : ℚ
  mu : ℚ
  sigma : ℚ
  dimension_ : ℕ
  step : ℚ
  sliding_window_ : SlidingWindow
deriving DecidableEq

/-- `PrecomputedHTK.__init__`: glob `root_dir` two levels deep for HTK
files; with no match, raise a `ValueError` naming `root_dir`.  Otherwise
parse the header of the first match, set `dimension_` to its column count
and `step` to `sample_period * 1e-7` seconds unless the caller supplied an
explicit `step` override, and build the grid
`(start 0, caller-supplied duration, step)`. -/
def PrecomputedHTK.init (fs : FS) (root_dir : Path) (duration : ℚ)
    (step : Option ℚ) (mu sigma : ℚ) : Except PyError PrecomputedHTK :=
  match globHtk fs root_dir with
  | [] =>
      Except.error (PyError.valueError
        ("Could not find any HTK file in \x27" ++ uriStr root_dir ++ "\x27."))
  | file_htk :: _ =>
      match fsLookup fs file_htk with
      | some (FileContent.htk bytes) =>
          match load_htk bytes with
          | Except.error e => Except.error e
          | Except.ok (x, sample_period) =>
              let stp : ℚ :=
                match step with
                | some s => s
                | none => (sample_period : ℚ) * (1 / 10 ^ 7)
              Except.ok ⟨root_dir, duration, mu, sigma, x.num_features, stp,
                         ⟨0, duration, stp⟩⟩
      | _ =>
          -- a path returned by the glob exists; non-HTK content under a
          -- `.htk` name is outside the states this module produces
          Except.error PyError.structError

/-- `PrecomputedHTK.get_path` (static): `(root_dir)/(uri).htk`. -/
def PrecomputedHTK.get_path (root_dir : Path) (uri : Uri) : Path :=
  root_dir ++ appendExt uri ".htk"

/-- Per-entry normalization `(x - mu) / sigma`, element-wise over the
decoded matrix (`none` entries, the non-finite floats, stay non-finite). -/
def htkNormalize (rows : List (List (Option ℚ))) (mu sigma : ℚ) :
    List (List (Option ℚ)) :=
  rows.map (fun row => row.map (Option.map (fun x => (x - mu) / sigma)))

/-- A feature record read through the legacy backend (entries are modelled
floats, `none` marking non-finite values). -/
structure SlidingWindowFeatureHTK where
  data : List (List (Option ℚ))
  sliding_window : SlidingWindow
deriving DecidableEq

/-- `PrecomputedHTK.__call__`: open and decode the backing file directly —
there is no existence check, so a missing file surfaces as the low-level
`FileNotFoundError` of `open` — then normalize and wrap with the grid. -/
def PrecomputedHTK.call (p : PrecomputedHTK) (fs : FS) (uri : Uri) :
    Except PyError SlidingWindowFeatureHTK :=
  let file_htk := PrecomputedHTK.get_path p.root_dir uri
  match fsLookup fs file_htk with
  | none => Except.error (PyError.fileNotFoundError (uriStr file_htk))
  | some (FileContent.htk bytes) =>
      match load_htk bytes with
      | Except.error e => Except.error e
      | Except.ok (x, _) =>
          Except.ok ⟨htkNormalize x.rows p.mu p.sigma, p.sliding_window_⟩
  | some _ =>
      -- non-HTK content under a `.htk` name is outside the states this
      -- module produces; raw bytes of such a file fail `unpack`
      Except.error PyError.structError

theorem fsLookup_fsWrite_self (fs : FS) (p : Path) (c : FileContent) :
    fsLookup (fsWrite fs p c) p = some c := by
  simp [fsLookup, fsWrite, List.lookup]

theorem fsLookup_mkdir_p (fs : FS) (d : Path) (p : Path) :
    fsLookup (mkdir_p fs d) p = fsLookup fs p := rfl

theorem dropLast_metadataPath (root_dir : Path) :
    (metadataPath root_dir).dropLast = root_dir := by
  simp [metadataPath]

/-- C1: for every feature record whose matrix column count equals the
cache's resolved dimension, writing it via `dump` and then reading the same
key via `read` on a handle with `mu` and `sigma` unset returns a record
whose matrix equals the written matrix and whose grid equals the cache's
resolved schema grid. -/
theorem C1_write_read_roundtrip (p : Precomputed) (fs : FS) (uri : Uri)
    (features : SlidingWindowFeature)
    (hmu : p.mu = none) (hsigma : p.sigma = none)
    (hdim : ∀ row ∈ features.data, row.length = p.dimension_) :
    (Precomputed.call p (Precomputed.dump p fs uri features) uri).1 =
      Except.ok ⟨features.data, p.sliding_window_⟩ := by
  simp [Precomputed.call, Precomputed.dump, fsLookup_fsWrite_self, hmu, hsigma]

/-- Witness for C1 at a concrete handle, key and record. -/
theorem C1_write_read_roundtrip_witness :
    (Precomputed.call ⟨["root"], true, none, none, ⟨0, 2, 1⟩, 2⟩
        (Precomputed.dump ⟨["root"], true, none, none, ⟨0, 2, 1⟩, 2⟩
          ⟨[], []⟩ ["db", "a"] ⟨[[1, 2], [3, 4]], ⟨0, 2, 1⟩⟩)
        ["db", "a"]).1 =
      Except.ok ⟨[[1, 2], [3, 4]], ⟨0, 2, 1⟩⟩ := by
  have h := C1_write_read_roundtrip ⟨["root"], true, none, none, ⟨0, 2, 1⟩, 2⟩
    ⟨[], []⟩ ["db", "a"] ⟨[[1, 2], [3, 4]], ⟨0, 2, 1⟩⟩ rfl rfl (by simp)
  simpa using h

/-- C2 (code bug): opening a cache whose stored schema has dimension 3 with
a supplied expected dimension 5 does fail, but with an `AttributeError`
(the message-formatting expression reads the misspelled attribute
`self.dimensions_`) instead of the documented configuration-mismatch
`ValueError` naming both dimension values. -/
theorem C2_dimension_mismatch_raises_attribute_error :
    Precomputed.init
      ⟨[(["root", "metadata.yml"], FileContent.yamlSchema 0 2 1 3)], []⟩
      ["root"] true (some ⟨0, 2, 1⟩) (some 5) none none =
      Except.error (PyError.attributeError "dimensions_") := by
  rfl

/-- C3: opening a cache directory with no existing schema file fails with a
missing-parameter error when the grid or the dimension is absent; with both
supplied it succeeds, creates the directory, writes the schema file with
those values, and resolves the schema to exactly those values. -/
theorem C3_fresh_open (fs : FS) (root_dir : Path) (use_memmap : Bool)
    (sw : SlidingWindow) (d : ℕ) (mu sigma : Option ℚ)
    (hno : fsLookup fs (metadataPath root_dir) = none) :
    (∀ dim, Precomputed.init fs root_dir use_memmap none dim mu sigma =
        Except.error (PyError.valueError "missing \"sliding_window\" parameter.")) ∧
    (Precomputed.init fs root_dir use_memmap (some sw) none mu sigma =
        Except.error (PyError.valueError "missing \"dimension\" parameter.")) ∧
    (∃ h fs2,
      Precomputed.init fs root_dir use_memmap (some sw) (some d) mu sigma =
        Except.ok (h, fs2) ∧
      h.sliding_window_ = sw ∧ h.dimension_ = d ∧
      fsLookup fs2 (metadataPath root_dir) =
        some (FileContent.yamlSchema sw.start sw.duration sw.step d) ∧
      root_dir ∈ fs2.dirs) := by
  refine ⟨?_, ?_, ?_⟩
  · intro dim
    simp [Precomputed.init, hno]
  · simp [Precomputed.init, hno]
  · refine ⟨⟨root_dir, use_memmap, mu, sigma, sw, d⟩,
      fsWrite (mkdir_p fs (metadataPath root_dir).dropLast) (metadataPath root_dir)
        (FileContent.yamlSchema sw.start sw.duration sw.step d),
      ?_, rfl, rfl, fsLookup_fsWrite_self .., ?_⟩
    · simp [Precomputed.init, hno]
    · simp [fsWrite, mkdir_p, dropLast_metadataPath]

/-- Witness for C3 at a concrete directory and schema. -/
theorem C3_fresh_open_witness :
    (∀ dim, Precomputed.init ⟨[], []⟩ ["root"] true none dim none none =
        Except.error (PyError.valueError "missing \"sliding_window\" parameter.")) ∧
    (Precomputed.init ⟨[], []⟩ ["root"] true (some ⟨0, 2, 1⟩) none none none =
        Except.error (PyError.valueError "missing \"dimension\" parameter.")) ∧
    (∃ h fs2,
      Precomputed.init ⟨[], []⟩ ["root"] true (some ⟨0, 2, 1⟩) (some 2) none none =
        Except.ok (h, fs2) ∧
      h.sliding_window_ = (⟨0, 2, 1⟩ : SlidingWindow) ∧ h.dimension_ = 2 ∧
      fsLookup fs2 (metadataPath ["root"]) = some (FileContent.yamlSchema 0 2 1 2) ∧
      ["root"] ∈ fs2.dirs) :=
  C3_fresh_open ⟨[], []⟩ ["root"] true ⟨0, 2, 1⟩ 2 none none rfl

/-- C4: a read for a key whose backing file is absent fails with the
domain-specific `PyannoteFeatureExtractionError` naming the key, and the
returned file-system state is exactly the input state: no file is created. -/
theorem C4_read_missing_key (p : Precomputed) (fs : FS) (uri : Uri)
    (habs : fsLookup fs (p.get_path uri) = none) :
    Precomputed.call p fs uri =
      (Except.error (PyError.featureExtractionError
        ("No precomputed features for \"" ++ uriStr uri ++ "\".")), fs) := by
  simp [Precomputed.call, habs]

/-- Witness for C4 at a concrete handle and key. -/
theorem C4_read_missing_key_witness :
    Precomputed.call ⟨["root"], true, none, none, ⟨0, 2, 1⟩, 2⟩ ⟨[], []⟩ ["db", "a"] =
      (Except.error (PyError.featureExtractionError
        "No precomputed features for \"db/a\"."), ⟨[], []⟩) := by
  have h := C4_read_missing_key ⟨["root"], true, none, none, ⟨0, 2, 1⟩, 2⟩
    ⟨[], []⟩ ["db", "a"] rfl
  simpa [uriStr] using h

/-- C5 counterexample: on a handle with `mu = 2.0` set and `sigma` unset,
reading a stored matrix `[[6, 10]]` does not return the raw matrix as the
claim's "otherwise" case states: the read fails with a `TypeError`. -/
theorem C5_mixed_mu_sigma_counterexample :
    (Precomputed.call ⟨["root"], true, some 2, none, ⟨0, 2, 1⟩, 2⟩
        ⟨[(["root", "a.npy"], FileContent.npy [[6, 10]])], []⟩ ["a"]).1 =
      Except.error (PyError.typeError "unsupported operand type: NoneType") ∧
    (Precomputed.call ⟨["root"], true, some 2, none, ⟨0, 2, 1⟩, 2⟩
        ⟨[(["root", "a.npy"], FileContent.npy [[6, 10]])], []⟩ ["a"]).1 ≠
      Except.ok ⟨[[6, 10]], ⟨0, 2, 1⟩⟩ := by
  have h1 : (Precomputed.call ⟨["root"], true, some 2, none, ⟨0, 2, 1⟩, 2⟩
      ⟨[(["root", "a.npy"], FileContent.npy [[6, 10]])], []⟩ ["a"]).1 =
      Except.error (PyError.typeError "unsupported operand type: NoneType") := rfl
  refine ⟨h1, ?_⟩
  rw [h1]
  intro h
  simp at h

/-- C5 (amended): a read applies `(data - mu) / sigma` exactly when both
`mu` and `sigma` are set, returns the raw stored matrix unchanged when
neither is set, and fails with a `TypeError` when exactly one of them is
set. -/
theorem C5_normalization (p : Precomputed) (fs : FS) (uri : Uri)
    (data : List (List ℚ))
    (hfile : fsLookup fs (p.get_path uri) = some (FileContent.npy data)) :
    (p.mu = none → p.sigma = none →
      (Precomputed.call p fs uri).1 = Except.ok ⟨data, p.sliding_window_⟩) ∧
    (∀ m s, p.mu = some m → p.sigma = some s →
      (Precomputed.call p fs uri).1 =
        Except.ok ⟨data.map (fun row => row.map (fun x => (x - m) / s)),
                   p.sliding_window_⟩) ∧
    (∀ m, p.mu = some m → p.sigma = none →
      (Precomputed.call p fs uri).1 =
        Except.error (PyError.typeError "unsupported operand type: NoneType")) ∧
    (∀ s, p.mu = none → p.sigma = some s →
      (Precomputed.call p fs uri).1 =
        Except.error (PyError.typeError "unsupported operand type: NoneType")) := by
  refine ⟨?_, ?_, ?_, ?_⟩
  · intro hmu hsigma
    simp [Precomputed.call, hfile, hmu, hsigma]
  · intro m s hmu hsigma
    simp [Precomputed.call, hfile, hmu, hsigma]
  · intro m hmu hsigma
    simp [Precomputed.call, hfile, hmu, hsigma]
  · intro s hmu hsigma
    simp [Precomputed.call, hfile, hmu, hsigma]

/-- Witness for C5: with `mu = 2.0` and `sigma = 4.0`, a stored matrix
`[[6, 10]]` is read back as `[[1, 2]]`. -/
theorem C5_normalization_witness :
    (Precomputed.call ⟨["root"], true, some 2, some 4, ⟨0, 2, 1⟩, 2⟩
        ⟨[(["root", "a.npy"], FileContent.npy [[6, 10]])], []⟩ ["a"]).1 =
      Except.ok ⟨[[1, 2]], ⟨0, 2, 1⟩⟩ := by
  have h := (C5_normalization ⟨["root"], true, some 2, some 4, ⟨0, 2, 1⟩, 2⟩
    ⟨[(["root", "a.npy"], FileContent.npy [[6, 10]])], []⟩ ["a"] [[6, 10]]
    rfl).2.1 2 4 rfl rfl
  rw [h]
  norm_num

/-- C9: opening a fresh cache directory with a `(dimension, grid)` pair and
then opening the same directory a second time with the same pair succeeds
both times, both opens resolve to identical `(grid, dimension)` values, and
the second open leaves the file-system state written by the first open
unchanged. -/
theorem C9_schema_immutable (fs : FS) (root_dir : Path) (um1 um2 : Bool)
    (sw : SlidingWindow) (d : ℕ) (mu1 sigma1 mu2 sigma2 : Option ℚ)
    (hno : fsLookup fs (metadataPath root_dir) = none) :
    ∃ h1 fs1 h2 fs2,
      Precomputed.init fs root_dir um1 (some sw) (some d) mu1 sigma1 =
        Except.ok (h1, fs1) ∧
      Precomputed.init fs1 root_dir um2 (some sw) (some d) mu2 sigma2 =
        Except.ok (h2, fs2) ∧
      h1.sliding_window_ = sw ∧ h1.dimension_ = d ∧
      h2.sliding_window_ = sw ∧ h2.dimension_ = d ∧
      fs2 = fs1 := by
  have hinit1 : Precomputed.init fs root_dir um1 (some sw) (some d) mu1 sigma1 =
      Except.ok (⟨root_dir, um1, mu1, sigma1, sw, d⟩,
        fsWrite (mkdir_p fs (metadataPath root_dir).dropLast) (metadataPath root_dir)
          (FileContent.yamlSchema sw.start sw.duration sw.step d)) := by
    simp [Precomputed.init, hno]
  have hinit2 : Precomputed.init
      (fsWrite (mkdir_p fs (metadataPath root_dir).dropLast) (metadataPath root_dir)
        (FileContent.yamlSchema sw.start sw.duration sw.step d))
      root_dir um2 (some sw) (some d) mu2 sigma2 =
      Except.ok (⟨root_dir, um2, mu2, sigma2, sw, d⟩,
        fsWrite (mkdir_p fs (metadataPath root_dir).dropLast) (metadataPath root_dir)
          (FileContent.yamlSchema sw.start sw.duration sw.step d)) := by
    simp [Precomputed.init, fsLookup_fsWrite_self, dimMismatch, swMismatch]
  exact ⟨_, _, _, _, hinit1, hinit2, rfl, rfl, rfl, rfl, rfl⟩

/-- Witness for C9 at a concrete directory and schema. -/
theorem C9_schema_immutable_witness :
    ∃ h1 fs1 h2 fs2,
      Precomputed.init ⟨[], []⟩ ["root"] true (some ⟨0, 2, 1⟩) (some 2) none none =
        Except.ok (h1, fs1) ∧
      Precomputed.init fs1 ["root"] true (some ⟨0, 2, 1⟩) (some 2) none none =
        Except.ok (h2, fs2) ∧
      h1.sliding_window_ = (⟨0, 2, 1⟩ : SlidingWindow) ∧ h1.dimension_ = 2 ∧
      h2.sliding_window_ = (⟨0, 2, 1⟩ : SlidingWindow) ∧ h2.dimension_ = 2 ∧
      fs2 = fs1 :=
  C9_schema_immutable ⟨[], []⟩ ["root"] true true ⟨0, 2, 1⟩ 2 none none none none rfl

/-- C7 (code bug): on a 2-channel sample matrix with channel 2 requested
and no mono mixing, `read_audio` returns the second channel's samples as a
ONE-dimensional array of shape `(n_samples,)` — `y[channel - 1, :]` drops
the channel axis and the final transpose leaves a 1-D array unchanged —
contradicting the documented two-dimensional `(n_samples, n_kept_channels)`
shape. -/
theorem C7_channel_selection_returns_1d :
    read_audio (NDArray.two [[1, 2, 3], [4, 5, 6]]) (some 2) false =
      Except.ok (NDArray.one [4, 5, 6]) ∧
    (NDArray.one [4, 5, 6]).ndim = 1 :=
  ⟨rfl, rfl⟩

/-- C8: initialization of the legacy backend scans exactly two levels below
`root_dir` for files with the `.htk` extension, and when no file matches it
fails with a configuration `ValueError` naming `root_dir`. -/
theorem C8_htk_init_scan (fs : FS) (root_dir : Path) (dur : ℚ)
    (step : Option ℚ) (mu sigma : ℚ) :
    (∀ q : Path, htkGlobMatch root_dir q = true ↔
      ∃ a b, q = root_dir ++ [a, b] ∧ strStartsWith a "." = false ∧
        strStartsWith b "." = false ∧ strEndsWith b ".htk" = true) ∧
    (globHtk fs root_dir = [] ↔
      ∀ pr ∈ fs.files, htkGlobMatch root_dir pr.1 = false) ∧
    (globHtk fs root_dir = [] →
      PrecomputedHTK.init fs root_dir dur step mu sigma =
        Except.error (PyError.valueError
          ("Could not find any HTK file in \x27" ++ uriStr root_dir ++ "\x27."))) := by
  refine ⟨?_, ?_, ?_⟩
  · intro q
    constructor
    · intro hm
      unfold htkGlobMatch at hm
      rw [Bool.and_eq_true, decide_eq_true_eq] at hm
      obtain ⟨h1, h2⟩ := hm
      rcases hd : q.drop root_dir.length with _ | ⟨a, _ | ⟨b, _ | _⟩⟩ <;>
        rw [hd] at h2
      · exact absurd h2 (by simp)
      · exact absurd h2 (by simp)
      · change (!strStartsWith a "." && !strStartsWith b "." &&
          strEndsWith b ".htk") = true at h2
        rw [Bool.and_eq_true, Bool.and_eq_true, Bool.not_eq_true',
          Bool.not_eq_true'] at h2
        refine ⟨a, b, ?_, h2.1.1, h2.1.2, h2.2⟩
        conv_lhs => rw [← List.take_append_drop root_dir.length q]
        rw [h1, hd]
      · exact absurd h2 (by simp)
    · rintro ⟨a, b, rfl, ha, hb, hext⟩
      unfold htkGlobMatch
      rw [List.take_left, List.drop_left]
      simp [ha, hb, hext]
  · rw [globHtk, List.filter_eq_nil_iff]
    constructor
    · intro h pr hpr
      have := h pr.1 (List.mem_map_of_mem _ hpr)
      simpa using this
    · intro h x hx
      obtain ⟨pr, hpr, rfl⟩ := List.mem_map.mp hx
      simp [h pr hpr]
  · intro hg
    simp [PrecomputedHTK.init, hg]

/-- Witness for C8: a directory holding only a two-level `.npy` file has no
glob match for the legacy extension, and the concrete open fails naming the
directory; the glob characterization is checked on its path. -/
theorem C8_htk_init_scan_witness :
    (htkGlobMatch ["root"] ["root", "db", "x.npy"] = true ↔
      ∃ a b, (["root", "db", "x.npy"] : Path) = ["root"] ++ [a, b] ∧
        strStartsWith a "." = false ∧ strStartsWith b "." = false ∧
        strEndsWith b ".htk" = true) ∧
    PrecomputedHTK.init ⟨[(["root", "db", "x.npy"], FileContent.npy [])], []⟩
      ["root"] (1 / 40) none 0 1 =
      Except.error (PyError.valueError "Could not find any HTK file in \x27root\x27.") := by
  have h := C8_htk_init_scan ⟨[(["root", "db", "x.npy"], FileContent.npy [])], []⟩
    ["root"] (1 / 40) none 0 1
  refine ⟨h.1 ["root", "db", "x.npy"], ?_⟩
  have herr := h.2.2 (by rfl)
  simpa [uriStr] using herr

/-- C10: for a key whose backing file is absent, the legacy backend's read
fails with the low-level `FileNotFoundError` of `open`, while the
matrix-native backend's read fails with the domain-specific
`PyannoteFeatureExtractionError` naming the key; the two error values are
never equal. -/
theorem C10_backend_not_found_mismatch (p : Precomputed) (h : PrecomputedHTK)
    (fs : FS) (uri : Uri)
    (h1 : fsLookup fs (p.get_path uri) = none)
    (h2 : fsLookup fs (PrecomputedHTK.get_path h.root_dir uri) = none) :
    (Precomputed.call p fs uri).1 =
      Except.error (PyError.featureExtractionError
        ("No precomputed features for \"" ++ uriStr uri ++ "\".")) ∧
    PrecomputedHTK.call h fs uri =
      Except.error (PyError.fileNotFoundError
        (uriStr (PrecomputedHTK.get_path h.root_dir uri))) ∧
    ∀ m q, PyError.featureExtractionError m ≠ PyError.fileNotFoundError q := by
  refine ⟨?_, ?_, ?_⟩
  · simp [Precomputed.call, h1]
  · simp [PrecomputedHTK.call, h2]
  · intro m q hmq
    exact PyError.noConfusion hmq

/-- Witness for C10 at a concrete pair of handles and a concrete missing
key. -/
theorem C10_backend_not_found_mismatch_witness :
    (Precomputed.call ⟨["root"], true, none, none, ⟨0, 2, 1⟩, 2⟩ ⟨[], []⟩
        ["db", "a"]).1 =
      Except.error (PyError.featureExtractionError
        "No precomputed features for \"db/a\".") ∧
    PrecomputedHTK.call ⟨["htkroot"], 1 / 40, 0, 1, 2, 1 / 100, ⟨0, 1 / 40, 1 / 100⟩⟩
        ⟨[], []⟩ ["db", "a"] =
      Except.error (PyError.fileNotFoundError "htkroot/db/a.htk") ∧
    ∀ m q, PyError.featureExtractionError m ≠ PyError.fileNotFoundError q := by
  have h := C10_backend_not_found_mismatch
    ⟨["root"], true, none, none, ⟨0, 2, 1⟩, 2⟩
    ⟨["htkroot"], 1 / 40, 0, 1, 2, 1 / 100, ⟨0, 1 / 40, 1 / 100⟩⟩
    ⟨[], []⟩ ["db", "a"] rfl rfl
  simpa [uriStr, PrecomputedHTK.get_path, appendExt] using h

theorem chunks4_length : ∀ l : List ℕ, (chunks4 l).length = l.length / 4
  | [] => by simp [chunks4]
  | [_] => by simp [chunks4]
  | [_, _] => by simp [chunks4]
  | [_, _, _] => by simp [chunks4]
  | _ :: _ :: _ :: _ :: rest => by
      rw [chunks4, List.length_cons, chunks4_length rest]
      simp only [List.length_cons]
      omega

theorem unpackFloats_length (data : List ℕ) :
    (unpackFloats data).length = data.length / 4 := by
  simp [unpackFloats, chunks4_length]

theorem readRecs_complete (s : ℕ) (h4 : 4 ∣ s) :
    ∀ (n : ℕ) (fp : List ℕ), fp.length = n * s →
      readRecs s n fp = Except.ok
        ((List.range n).map (fun i => unpackFloats ((fp.drop (i * s)).take s))) := by
  intro n
  induction n with
  | zero =>
      intro fp h
      simp [readRecs]
  | succ m ih =>
      intro fp hlen
      have hsle : s ≤ fp.length := by
        rw [hlen]
        nlinarith
      have hcheck : (fp.take s).length = 4 * (s / 4) := by
        rw [List.length_take, Nat.mul_div_cancel' h4]
        omega
      have hdrop : (fp.drop s).length = m * s := by
        rw [List.length_drop, hlen]
        ring_nf
        omega
      rw [readRecs]
      simp only [hcheck, if_pos, ih (fp.drop s) hdrop]
      rw [List.range_succ_eq_map, List.map_cons, List.map_map]
      have htail : List.map
          (fun i => unpackFloats (List.take s (List.drop (i * s) (List.drop s fp))))
          (List.range m) =
          List.map ((fun i => unpackFloats (List.take s (List.drop (i * s) fp))) ∘
            Nat.succ) (List.range m) := by
        apply List.map_congr_left
        intro i _
        simp only [Function.comp_apply, List.drop_drop]
        congr 3
        simp only [Nat.succ_mul]
        ring
      simp [htail]
      intro a _
      congr 3
      ring

theorem htkNormalize_zero_one (rows : List (List (Option ℚ))) :
    htkNormalize rows 0 1 = rows := by
  simp [htkNormalize]

/-- C6: a well-formed legacy binary file — a 12-byte big-endian header
(`int32 num_samples`, `int32 sample_period`, `int16 sample_size_bytes`,
`int16 reserved`) followed by `num_samples` records of `sample_size_bytes/4`
big-endian binary32 floats each — decodes to a `num_samples` by
`sample_size_bytes/4` matrix; the backend derives
`dimension = sample_size_bytes/4` and `step = sample_period * 1e-7` seconds
and wraps reads on a grid with start `0`, the caller-supplied duration and
that step. -/
theorem C6_legacy_binary_decode
    (hn hp hs hr payload : List ℕ) (n p s : ℕ)
    (fs : FS) (root_dir : Path) (uri : Uri) (dur : ℚ)
    (lhn : hn.length = 4) (lhp : hp.length = 4) (lhs : hs.length = 2)
    (lhr : hr.length = 2)
    (vn : beNat hn = n) (vp : beNat hp = p) (vs : beNat hs = s)
    (bn : n < 2 ^ 31) (bp : p < 2 ^ 31) (bs : s < 2 ^ 15) (h4 : 4 ∣ s)
    (lpay : payload.length = n * s)
    (hglob : globHtk fs root_dir = [PrecomputedHTK.get_path root_dir uri])
    (hfile : fsLookup fs (PrecomputedHTK.get_path root_dir uri) =
      some (FileContent.htk (hn ++ hp ++ hs ++ hr ++ payload))) :
    load_htk (hn ++ hp ++ hs ++ hr ++ payload) =
      Except.ok (⟨(List.range n).map
        (fun i => unpackFloats ((payload.drop (i * s)).take s)), s / 4⟩, (p : ℤ)) ∧
    ((List.range n).map
      (fun i => unpackFloats ((payload.drop (i * s)).take s))).length = n ∧
    (∀ row ∈ (List.range n).map
        (fun i => unpackFloats ((payload.drop (i * s)).take s)),
      row.length = s / 4) ∧
    PrecomputedHTK.init fs root_dir dur none 0 1 =
      Except.ok ⟨root_dir, dur, 0, 1, s / 4, (p : ℚ) * (1 / 10 ^ 7),
        ⟨0, dur, (p : ℚ) * (1 / 10 ^ 7)⟩⟩ ∧
    PrecomputedHTK.call
        ⟨root_dir, dur, 0, 1, s / 4, (p : ℚ) * (1 / 10 ^ 7),
         ⟨0, dur, (p : ℚ) * (1 / 10 ^ 7)⟩⟩ fs uri =
      Except.ok ⟨(List.range n).map
          (fun i => unpackFloats ((payload.drop (i * s)).take s)),
        ⟨0, dur, (p : ℚ) * (1 / 10 ^ 7)⟩⟩ := by
  have hassoc : hn ++ hp ++ hs ++ hr ++ payload =
      (hn ++ (hp ++ (hs ++ hr))) ++ payload := by
    simp [List.append_assoc]
  have lH : (hn ++ (hp ++ (hs ++ hr))).length = 12 := by
    simp [lhn, lhp, lhs, lhr]
  have t12 : ((hn ++ (hp ++ (hs ++ hr))) ++ payload).take 12 =
      hn ++ (hp ++ (hs ++ hr)) := List.take_left' lH
  have d12 : ((hn ++ (hp ++ (hs ++ hr))) ++ payload).drop 12 = payload :=
    List.drop_left' lH
  have t4 : (hn ++ (hp ++ (hs ++ hr))).take 4 = hn := List.take_left' lhn
  have d4 : (hn ++ (hp ++ (hs ++ hr))).drop 4 = hp ++ (hs ++ hr) :=
    List.drop_left' lhn
  have d8 : (hn ++ (hp ++ (hs ++ hr))).drop 8 = hs ++ hr := by
    have h : hn ++ (hp ++ (hs ++ hr)) = (hn ++ hp) ++ (hs ++ hr) := by
      simp [List.append_assoc]
    rw [h]
    exact List.drop_left' (by simp [lhn, lhp])
  have tp4 : (hp ++ (hs ++ hr)).take 4 = hp := List.take_left' lhp
  have ts2 : (hs ++ hr).take 2 = hs := List.take_left' lhs
  have hns : toSigned32 (beNat hn) = (n : ℤ) := by
    rw [vn, toSigned32, if_pos]
    exact_mod_cast bn
  have hps : toSigned32 (beNat hp) = (p : ℤ) := by
    rw [vp, toSigned32, if_pos]
    exact_mod_cast bp
  have hss : toSigned16 (beNat hs) = (s : ℤ) := by
    rw [vs, toSigned16, if_pos]
    exact_mod_cast bs
  have hdivcast : Int.tdiv (s : ℤ) 4 = ((s / 4 : ℕ) : ℤ) :=
    (Int.ofNat_tdiv s 4).symm
  have hload : load_htk (hn ++ hp ++ hs ++ hr ++ payload) =
      Except.ok (⟨(List.range n).map
        (fun i => unpackFloats ((payload.drop (i * s)).take s)), s / 4⟩, (p : ℤ)) := by
    rw [hassoc, load_htk]
    simp only [t12, d12, lH, t4, d4, d8, tp4, ts2, hns, hps, hss, hdivcast]
    rw [if_neg (by omega)]
    rw [if_neg (by
      push_neg
      constructor
      · exact Int.ofNat_nonneg n
      · exact Int.ofNat_nonneg (s / 4)
      )]
    simp only [Int.toNat_ofNat]
    rw [readRecs_complete s h4 n payload lpay]
  refine ⟨hload, by simp, ?_, ?_, ?_⟩
  · intro row hrow
    obtain ⟨i, hi, rfl⟩ := List.mem_map.mp hrow
    rw [List.mem_range] at hi
    have hlen : ((payload.drop (i * s)).take s).length = s := by
      rw [List.length_take, List.length_drop, lpay]
      have : i * s + s ≤ n * s := by nlinarith
      omega
    rw [unpackFloats_length, hlen]
  · rw [PrecomputedHTK.init, hglob]
    simp only [hfile, hload]
    simp only [Int.cast_natCast]
  · rw [PrecomputedHTK.call]
    simp only [hfile, hload, htkNormalize_zero_one]

/-- Witness for C6: the header `(2, 100000, 8, 0)` followed by the binary32
records `(1.0, 2.0)` and `(3.0, 4.0)` resolves to dimension 2 and step
`0.01`, and reads back as `[[1, 2], [3, 4]]` on the grid
`(start 0, duration 0.025, step 0.01)`. -/
theorem C6_legacy_binary_decode_witness :
    PrecomputedHTK.init
      ⟨[(["root", "db", "a.htk"], FileContent.htk
        [0, 0, 0, 2, 0, 1, 134, 160, 0, 8, 0, 0,
         63, 128, 0, 0, 64, 0, 0, 0, 64, 64, 0, 0, 64, 128, 0, 0])], []⟩
      ["root"] (1 / 40) none 0 1 =
      Except.ok ⟨["root"], 1 / 40, 0, 1, 2, 1 / 100, ⟨0, 1 / 40, 1 / 100⟩⟩ ∧
    PrecomputedHTK.call ⟨["root"], 1 / 40, 0, 1, 2, 1 / 100, ⟨0, 1 / 40, 1 / 100⟩⟩
      ⟨[(["root", "db", "a.htk"], FileContent.htk
        [0, 0, 0, 2, 0, 1, 134, 160, 0, 8, 0, 0,
         63, 128, 0, 0, 64, 0, 0, 0, 64, 64, 0, 0, 64, 128, 0, 0])], []⟩
      ["db", "a"] =
      Except.ok ⟨[[some 1, some 2], [some 3, some 4]], ⟨0, 1 / 40, 1 / 100⟩⟩ := by
  have h := C6_legacy_binary_decode [0, 0, 0, 2] [0, 1, 134, 160] [0, 8] [0, 0]
    [63, 128, 0, 0, 64, 0, 0, 0, 64, 64, 0, 0, 64, 128, 0, 0] 2 100000 8
    ⟨[(["root", "db", "a.htk"], FileContent.htk
      [0, 0, 0, 2, 0, 1, 134, 160, 0, 8, 0, 0,
       63, 128, 0, 0, 64, 0, 0, 0, 64, 64, 0, 0, 64, 128, 0, 0])], []⟩
    ["root"] ["db", "a"] (1 / 40)
    rfl rfl rfl rfl rfl rfl rfl (by norm_num) (by norm_num) (by norm_num)
    (by norm_num) rfl rfl rfl
  obtain ⟨hload, hlen, hrows, hinit, hcall⟩ := h
  have hh : (⟨["root"], 1 / 40, 0, 1, 8 / 4, ((100000 : ℕ) : ℚ) * (1 / 10 ^ 7),
      ⟨0, 1 / 40, ((100000 : ℕ) : ℚ) * (1 / 10 ^ 7)⟩⟩ : PrecomputedHTK) =
      ⟨["root"], 1 / 40, 0, 1, 2, 1 / 100, ⟨0, 1 / 40, 1 / 100⟩⟩ := by
    norm_num
  constructor
  · rw [hinit]
    norm_num
  · rw [← hh, hcall]
    have er : List.range 2 = [0, 1] := rfl
    have e0 : (([63, 128, 0, 0, 64, 0, 0, 0, 64, 64, 0, 0, 64, 128, 0, 0] :
        List ℕ).drop (0 * 8)).take 8 = [63, 128, 0, 0, 64, 0, 0, 0] := rfl
    have e1 : (([63, 128, 0, 0, 64, 0, 0, 0, 64, 64, 0, 0, 64, 128, 0, 0] :
        List ℕ).drop (1 * 8)).take 8 = [64, 64, 0, 0, 64, 128, 0, 0] := rfl
    have c0 : chunks4 [63, 128, 0, 0, 64, 0, 0, 0] =
        [[63, 128, 0, 0], [64, 0, 0, 0]] := rfl
    have c1 : chunks4 [64, 64, 0, 0, 64, 128, 0, 0] =
        [[64, 64, 0, 0], [64, 128, 0, 0]] := rfl
    have b0 : beNat [63, 128, 0, 0] = 1065353216 := rfl
    have b1 : beNat [64, 0, 0, 0] = 1073741824 := rfl
    have b2 : beNat [64, 64, 0, 0] = 1077936128 := rfl
    have b3 : beNat [64, 128, 0, 0] = 1082130432 := rfl
    norm_num [er, e0, e1, c0, c1, b0, b1, b2, b3, unpackFloats, decodeF32, pow2,
      show Int.toNat 0 = 0 from rfl, show Int.toNat 1 = 1 from rfl,
      show Int.toNat 2 = 2 from rfl]

end PyannoteAudio
